import Mathlib

/-!
Verification of the recovery and progress subsystems of the OpenManus
repository: error taxonomy (`app/recovery/errors.py`), retry strategy and
handler (`app/recovery/retry.py`), checkpoint manager
(`app/recovery/checkpoint.py`), progress tracker (`app/progress/tracker.py`),
progress event bus (`app/progress/events.py`) and the graceful shutdown
handler (`app/progress/interrupt.py`).

Python numeric values (floats used as seconds) are modelled as rationals `ℚ`;
Python `str` values as `String`; Python dicts as insertion-ordered
association lists.  `random.random()` is modelled by passing the drawn jitter
factor explicitly.  Wall-clock reads (`time.time()`, `datetime.now()`) are
modelled by explicit `now` parameters.
-/

namespace OpenManus

/-! ## String helpers

Python's case-insensitive substring test `keyword in s.lower()` is modelled on
`List Char`. -/

/-- Lowercase a Python string, as `str.lower` does on ASCII data. -/
def lowerStr (s : String) : List Char := s.data.map Char.toLower

/-- Python's `needle in hay` substring containment on character lists. -/
def containsSub : List Char → List Char → Bool
  | [], n => n.isEmpty
  | h@(_ :: t), n => n.isPrefixOf h || containsSub t n

/-- Python `keyword in hay` where `keyword` is a string literal. -/
def strIn (needle : String) (hay : List Char) : Bool :=
  containsSub hay needle.data

/-- `any(keyword in error_str or keyword in error_type for keyword in kws)`. -/
def matchesAny (msg ty : List Char) (kws : List String) : Bool :=
  kws.any (fun k => strIn k msg || strIn k ty)

/-- `any(keyword in error_str for keyword in kws)` (message only). -/
def matchesMsg (msg : List Char) (kws : List String) : Bool :=
  kws.any (fun k => strIn k msg)

/-! ## Error taxonomy (`app/recovery/errors.py`) -/

/-- `ErrorCategory` enumeration from `errors.py`. -/
inductive ErrorCategory where
  | NETWORK
  | API
  | RATE_LIMIT
  | AUTHENTICATION
  | BROWSER
  | FILESYSTEM
  | TIMEOUT
  | CONFIGURATION
  | RESOURCE
  | UNKNOWN
deriving DecidableEq, Repr

open ErrorCategory

/-- A Python exception as observed by the recovery module: its `str()` text,
its type name, the explicit `retryable` flag when the exception belongs to the
`RecoveryError` hierarchy (`some true` for `RetryableError`, `some false` for
`FatalError`, `none` for any other exception), and the `suggested_delay`
carried by a `RetryableError`. -/
structure PyError where
  msg : String
  typeName : String
  flag : Option Bool := none
  suggested : Option ℚ := none
deriving DecidableEq

/-- Keyword group for `ErrorCategory.NETWORK` in `classify_error`. -/
def networkKeywords : List String :=
  ["connection", "network", "unreachable", "dns", "socket",
   "connectionerror", "connectionrefusederror"]

/-- Keyword group for `ErrorCategory.TIMEOUT` in `classify_error`. -/
def timeoutKeywords : List String :=
  ["timeout", "timed out", "timeouterror"]

/-- Keyword group for `ErrorCategory.RATE_LIMIT` in `classify_error`
(matched against the message only in the source). -/
def rateLimitKeywords : List String :=
  ["rate limit", "429", "too many requests", "quota"]

/-- Keyword group for `ErrorCategory.AUTHENTICATION` in `classify_error`. -/
def authKeywords : List String :=
  ["api key", "authentication", "unauthorized", "401", "403",
   "forbidden", "invalid key"]

/-- Keyword group for `ErrorCategory.BROWSER` in `classify_error`. -/
def browserKeywords : List String :=
  ["browser", "playwright", "selenium", "chrome", "firefox", "page crashed"]

/-- Keyword group for `ErrorCategory.FILESYSTEM` in `classify_error`. -/
def filesystemKeywords : List String :=
  ["file not found", "permission denied", "disk", "filesystem",
   "ioerror", "oserror"]

/-- Keyword group for `ErrorCategory.CONFIGURATION` in `classify_error`. -/
def configKeywords : List String :=
  ["config", "configuration", "missing", "not configured"]

/-- Keyword group for `ErrorCategory.RESOURCE` in `classify_error`. -/
def resourceKeywords : List String :=
  ["memory", "out of memory", "resource", "memoryerror"]

/-- Keyword group for `ErrorCategory.API` in `classify_error`. -/
def apiKeywords : List String :=
  ["api", "500", "502", "503", "504", "bad gateway"]

/-- `classify_error` on the already-lowercased message and type name,
checking the keyword groups in source order and returning the first match. -/
def classifyLower (s t : List Char) : ErrorCategory :=
  if matchesAny s t networkKeywords then NETWORK
  else if matchesAny s t timeoutKeywords then TIMEOUT
  else if matchesMsg s rateLimitKeywords then RATE_LIMIT
  else if matchesAny s t authKeywords then AUTHENTICATION
  else if matchesAny s t browserKeywords then BROWSER
  else if matchesAny s t filesystemKeywords then FILESYSTEM
  else if matchesAny s t configKeywords then CONFIGURATION
  else if matchesAny s t resourceKeywords then RESOURCE
  else if matchesAny s t apiKeywords then API
  else UNKNOWN

/-- `classify_error(error)` from `errors.py`: lowercases `str(error)` and
`type(error).__name__` and matches the ordered keyword groups. -/
def classify_error (e : PyError) : ErrorCategory :=
  classifyLower (lowerStr e.msg) (lowerStr e.typeName)

/-- The `retryable_categories` set in `is_retryable`. -/
def retryableCategories : List ErrorCategory :=
  [NETWORK, TIMEOUT, RATE_LIMIT, API, BROWSER]

/-- The `fatal_categories` set in `is_retryable`. -/
def fatalCategories : List ErrorCategory :=
  [AUTHENTICATION, CONFIGURATION, FILESYSTEM]

/-- `is_retryable(error)` from `errors.py`: use the explicit `retryable`
attribute when the exception is a `RetryableError`/`FatalError`, otherwise
classify and consult the two fixed category sets, defaulting to `false`. -/
def is_retryable (e : PyError) : Bool :=
  match e.flag with
  | some b => b
  | none =>
    let category := classify_error e
    if category ∈ retryableCategories then true
    else if category ∈ fatalCategories then false
    else false

/-! ## Retry strategy (`app/recovery/retry.py`, class `RetryStrategy`) -/

/-- `RetryStrategy` configuration value object.  `max_retries` is documented
as a non-negative int and is modelled as `Nat`; delays are seconds as `ℚ`;
`retry_on_categories` is `none` for the Python `None` and `some cats` for an
explicit set (Python set modelled as a list with membership). -/
structure RetryStrategy where
  max_retries : Nat := 3
  initial_delay : ℚ := 1
  max_delay : ℚ := 60
  exponential_base : ℚ := 2
  jitter : Bool := true
  retry_on_categories : Option (List ErrorCategory) := none

/-- `RetryStrategy.get_delay(attempt, suggested_delay)`.  The factor
`jitterFactor` models the drawn value `0.5 + random.random()`; it is read
only when `jitter` is enabled. -/
def get_delay (s : RetryStrategy) (attempt : Nat) (suggested : Option ℚ)
    (jitterFactor : ℚ) : ℚ :=
  let base :=
    match suggested with
    | some d => d
    | none => min (s.initial_delay * s.exponential_base ^ attempt) s.max_delay
  if s.jitter then base * jitterFactor else base

/-- The final branch of `should_retry`: `if self.retry_on_categories:` is a
Python truthiness test, so both `None` and the empty set mean "no
restriction". -/
def categoryAdmits (s : RetryStrategy) (e : PyError) : Bool :=
  match s.retry_on_categories with
  | none => true
  | some cats => if cats.isEmpty then true else decide (classify_error e ∈ cats)

/-- `RetryStrategy.should_retry(error, attempt)`. -/
def should_retry (s : RetryStrategy) (e : PyError) (attempt : Nat) : Bool :=
  if s.max_retries ≤ attempt then false
  else if !(is_retryable e) then false
  else categoryAdmits s e

/-! ## Retry handler (`app/recovery/retry.py`, class `RetryHandler`) -/

/-- The handler's `retry_stats` counter bundle. -/
structure RetryStats where
  total_attempts : Nat := 0
  successful_retries : Nat := 0
  failed_retries : Nat := 0
deriving DecidableEq, Repr

/-- Outcome of one invocation of the wrapped operation: a returned value or a
raised exception. -/
inductive Outcome (V : Type) where
  | ok (v : V)
  | err (e : PyError)

/-- The `TypeError` Python raises for `raise None` — reached only when the
`for` loop body never ran, which cannot happen since the loop has
`max_retries + 1 ≥ 1` iterations. -/
def raiseNoneError : PyError :=
  ⟨"exceptions must derive from BaseException", "TypeError", none, none⟩

/-- The body of `execute_with_retry`'s `for attempt in range(max_retries+1)`
loop: `attempt` is the current index, `remaining` the number of loop
iterations left, `st` the handler's statistics and `last` the
`last_exception` variable.  The operation is modelled as a function from the
attempt index to its outcome.  Backoff sleeping and the `on_retry` callback
have no effect on the returned value or the statistics and are omitted. -/
def retryLoop {V : Type} (s : RetryStrategy) (op : Nat → Outcome V) :
    Nat → Nat → RetryStats → Option PyError → Except PyError V × RetryStats
  | _, 0, st, last =>
    -- loop exhausted: `failed_retries += 1; raise last_exception`
    (Except.error (last.getD raiseNoneError),
     { st with failed_retries := st.failed_retries + 1 })
  | attempt, remaining + 1, st, _ =>
    let st := { st with total_attempts := st.total_attempts + 1 }
    match op attempt with
    | Outcome.ok v =>
      (Except.ok v,
       if 0 < attempt
       then { st with successful_retries := st.successful_retries + 1 }
       else st)
    | Outcome.err e =>
      if should_retry s e attempt then
        retryLoop s op (attempt + 1) remaining st (some e)
      else
        (Except.error e, { st with failed_retries := st.failed_retries + 1 })

/-- `RetryHandler.execute_with_retry(func, strategy=s)` run on a handler whose
statistics are `st`: returns the result (or the propagated exception) and the
handler's statistics afterwards. -/
def execute_with_retry {V : Type} (s : RetryStrategy) (op : Nat → Outcome V)
    (st : RetryStats) : Except PyError V × RetryStats :=
  retryLoop s op 0 (s.max_retries + 1) st none

/-! ## Predefined retry strategies (`app/recovery/retry.py`) -/

/-- `API_RETRY_STRATEGY` preset. -/
def API_RETRY_STRATEGY : RetryStrategy :=
  { max_retries := 5, initial_delay := 2, max_delay := 60,
    exponential_base := 2, jitter := true,
    retry_on_categories := some [NETWORK, TIMEOUT, API, RATE_LIMIT] }

/-- `BROWSER_RETRY_STRATEGY` preset. -/
def BROWSER_RETRY_STRATEGY : RetryStrategy :=
  { max_retries := 3, initial_delay := 1, max_delay := 30,
    exponential_base := 2, jitter := true,
    retry_on_categories := some [BROWSER, NETWORK] }

/-- `FILESYSTEM_RETRY_STRATEGY` preset. -/
def FILESYSTEM_RETRY_STRATEGY : RetryStrategy :=
  { max_retries := 2, initial_delay := 1/2, max_delay := 5,
    exponential_base := 2, jitter := false,
    retry_on_categories := some [FILESYSTEM] }

/-- `QUICK_RETRY_STRATEGY` preset. -/
def QUICK_RETRY_STRATEGY : RetryStrategy :=
  { max_retries := 2, initial_delay := 1/2, max_delay := 2,
    exponential_base := 2, jitter := true,
    retry_on_categories := none }

/-! ## Progress tracker (`app/progress/tracker.py`)

`ProgressTracker` fields are modelled directly; `parent`/`children` and the
event-bus reference, which the mutating methods never touch, are left out of
the state record.  Each method returns the new tracker state together with the
list of event types published through `_emit_event` (which drops the event
when `show_progress` is off); event payloads are drawn from the same fields
and are not duplicated here.  The event bus itself is modelled separately
below. -/

/-- `ProgressEventType` enumeration from `app/progress/events.py`. -/
inductive ProgressEventType where
  | STARTED
  | UPDATED
  | COMPLETED
  | FAILED
  | STEP_STARTED
  | STEP_COMPLETED
  | INTERMEDIATE_RESULT
  | MESSAGE
deriving DecidableEq, Repr

/-- Mutable state of a `ProgressTracker`.  Python `time`/`datetime` values
are seconds as `ℚ`; the `_step_start_times` dict and the `metadata` dict are
insertion-ordered association lists (metadata values modelled as strings). -/
structure ProgressTracker where
  total_steps : Option Int
  current_step : Int := 0
  description : String := ""
  show_progress : Bool := true
  start_time : ℚ
  end_time : Option ℚ := none
  step_start_times : List (Int × ℚ) := []
  step_durations : List ℚ := []
  metadata : List (String × String) := []
  is_completed : Bool := false
  is_failed : Bool := false
  last_message : String := ""
deriving DecidableEq, Repr

/-- First-match lookup in a Python dict modelled as an association list. -/
def dictGet {α β : Type} [DecidableEq α] : List (α × β) → α → Option β
  | [], _ => none
  | (k, v) :: rest, key => if k = key then some v else dictGet rest key

/-- Python dict assignment `d[k] = v`: overwrite in place when the key is
present, append otherwise. -/
def dictSet {α β : Type} [DecidableEq α] : List (α × β) → α → β → List (α × β)
  | [], key, v => [(key, v)]
  | (k, w) :: rest, key, v =>
    if k = key then (k, v) :: rest else (k, w) :: dictSet rest key v

/-- Python `d.update(m)` for dicts: each key of `m` in order overwrites or
appends. -/
def dictMerge {α β : Type} [DecidableEq α]
    (d m : List (α × β)) : List (α × β) :=
  m.foldl (fun acc kv => dictSet acc kv.1 kv.2) d

/-- `_emit_event`: the event is published only when `show_progress` is on. -/
def ProgressTracker.emit (t : ProgressTracker) (ev : ProgressEventType) :
    List ProgressEventType :=
  if t.show_progress then [ev] else []

/-- `ProgressTracker.update(step, message, increment, metadata)` at wall-clock
time `now`.  The Python `if metadata:` truthiness test skips both `None` and
an empty dict. -/
def ProgressTracker.update (t : ProgressTracker) (now : ℚ) (step : Option Int)
    (message : String := "") (increment : Int := 1)
    (metadata : Option (List (String × String)) := none) :
    ProgressTracker × List ProgressEventType :=
  if t.is_completed || t.is_failed then (t, [])
  else
    let t :=
      match dictGet t.step_start_times t.current_step with
      | some started =>
        { t with step_durations := t.step_durations ++ [now - started] }
      | none => t
    let newStep :=
      match step with
      | some s => s
      | none => t.current_step + increment
    let t := { t with current_step := newStep }
    let t := { t with step_start_times := dictSet t.step_start_times newStep now }
    let t :=
      match metadata with
      | some m => if m.isEmpty then t else { t with metadata := dictMerge t.metadata m }
      | none => t
    let t := { t with last_message := message }
    (t, t.emit ProgressEventType.UPDATED)

/-- `ProgressTracker.start_step(step_name)`: terminal guard, then only an
event emission — no field changes. -/
def ProgressTracker.start_step (t : ProgressTracker) (_stepName : String) :
    ProgressTracker × List ProgressEventType :=
  if t.is_completed || t.is_failed then (t, [])
  else (t, t.emit ProgressEventType.STEP_STARTED)

/-- `ProgressTracker.complete_step(step_name, result)`: terminal guard, then
only an event emission — no field changes. -/
def ProgressTracker.complete_step (t : ProgressTracker) (_stepName : String)
    (_result : Option String := none) :
    ProgressTracker × List ProgressEventType :=
  if t.is_completed || t.is_failed then (t, [])
  else (t, t.emit ProgressEventType.STEP_COMPLETED)

/-- `ProgressTracker.complete(message)` at wall-clock time `now`.  Python's
`message or "Completed"` falls back on the empty string. -/
def ProgressTracker.complete (t : ProgressTracker) (now : ℚ)
    (message : String := "") : ProgressTracker × List ProgressEventType :=
  if t.is_completed || t.is_failed then (t, [])
  else
    let t := { t with
      end_time := some now
      is_completed := true
      last_message := if message = "" then "Completed" else message }
    let t :=
      match t.total_steps with
      | some n => { t with current_step := n }
      | none => t
    (t, t.emit ProgressEventType.COMPLETED)

/-- `ProgressTracker.fail(error, message)` at wall-clock time `now`;
`errText` is `str(error)`.  Python's `message or str(error)` falls back on
the empty string. -/
def ProgressTracker.fail (t : ProgressTracker) (now : ℚ) (errText : String)
    (message : String := "") : ProgressTracker × List ProgressEventType :=
  if t.is_completed || t.is_failed then (t, [])
  else
    let t := { t with
      end_time := some now
      is_failed := true
      last_message := if message = "" then errText else message }
    (t, t.emit ProgressEventType.FAILED)

/-- `ProgressTracker.set_total_steps(total)`: overwrites `total_steps`
unconditionally (no terminal-state guard), then calls `update`. -/
def ProgressTracker.set_total_steps (t : ProgressTracker) (now : ℚ)
    (total : Int) : ProgressTracker × List ProgressEventType :=
  let t := { t with total_steps := some total }
  t.update now none "Updated total steps" 1 none

/-- `ProgressTracker.is_running` property. -/
def ProgressTracker.is_running (t : ProgressTracker) : Bool :=
  !(t.is_completed || t.is_failed)

/-- `ProgressTracker.percentage` property. -/
def ProgressTracker.percentage (t : ProgressTracker) : ℚ :=
  match t.total_steps with
  | none => 0
  | some n => if n = 0 then 0 else min 100 ((t.current_step : ℚ) / (n : ℚ) * 100)

/-- `ProgressTracker.duration` property at wall-clock time `now`. -/
def ProgressTracker.duration (t : ProgressTracker) (now : ℚ) : ℚ :=
  (t.end_time.getD now) - t.start_time

/-! ## Progress event bus (`app/progress/events.py`)

Callbacks are identified by numeric ids.  What a callback does when invoked
is modelled by the unsubscription calls it makes against the bus (`beh`);
exceptions a callback raises are caught by `publish` and change nothing.
`publish` iterates over the *live* listener lists exactly as the Python
`for` statement does: by an index into the current list object, re-read
after every callback. -/

/-- Listener registry: `listeners` dict (event type → callback list) and
`_global_listeners`. -/
structure ProgressEventBus where
  listeners : List (ProgressEventType × List Nat) := []
  global_listeners : List Nat := []
deriving DecidableEq, Repr

/-- An unsubscription call a callback may perform while it runs. -/
inductive BusAction where
  | unsubscribe (ty : ProgressEventType) (cb : Nat)
  | unsubscribeAll (cb : Nat)

/-- `ProgressEventBus.unsubscribe(event_type, callback)`: remove the first
occurrence from the type's list; missing key or missing callback is a silent
no-op (`except ValueError: pass`). -/
def busUnsubscribe (b : ProgressEventBus) (ty : ProgressEventType) (cb : Nat) :
    ProgressEventBus :=
  match dictGet b.listeners ty with
  | none => b
  | some l => { b with listeners := dictSet b.listeners ty (l.erase cb) }

/-- `ProgressEventBus.unsubscribe_all(callback)`: remove the first occurrence
from the global list; missing callback is a silent no-op. -/
def busUnsubscribeAll (b : ProgressEventBus) (cb : Nat) : ProgressEventBus :=
  { b with global_listeners := b.global_listeners.erase cb }

/-- Apply the unsubscription calls a callback makes, in order. -/
def applyActions (b : ProgressEventBus) : List BusAction → ProgressEventBus
  | [] => b
  | BusAction.unsubscribe ty cb :: rest => applyActions (busUnsubscribe b ty cb) rest
  | BusAction.unsubscribeAll cb :: rest => applyActions (busUnsubscribeAll b cb) rest

/-- The `for callback in self._global_listeners:` loop of `publish`: a Python
list iterator holds an index into the live list, re-checked after each
callback runs.  `fuel` bounds the iteration count; since callbacks only
remove listeners the list never grows, so a fuel of the list's length at
entry is exact. -/
def globalLoop (beh : Nat → List BusAction) :
    Nat → ProgressEventBus → Nat → List Nat → ProgressEventBus × List Nat
  | 0, b, _, invoked => (b, invoked)
  | fuel + 1, b, i, invoked =>
    if h : i < b.global_listeners.length then
      let cb := b.global_listeners.get ⟨i, h⟩
      globalLoop beh fuel (applyActions b (beh cb)) (i + 1) (invoked ++ [cb])
    else (b, invoked)

/-- The `for callback in self.listeners[event.event_type]:` loop of
`publish`, iterating over the live list stored in the dict. -/
def typedLoop (beh : Nat → List BusAction) (ty : ProgressEventType) :
    Nat → ProgressEventBus → Nat → List Nat → ProgressEventBus × List Nat
  | 0, b, _, invoked => (b, invoked)
  | fuel + 1, b, i, invoked =>
    let l := (dictGet b.listeners ty).getD []
    if h : i < l.length then
      let cb := l.get ⟨i, h⟩
      typedLoop beh ty fuel (applyActions b (beh cb)) (i + 1) (invoked ++ [cb])
    else (b, invoked)

/-- `ProgressEventBus.publish(event)` for an event of type `ty`: notify the
global listeners, then — when the type has an entry — the type-scoped
listeners.  Returns the bus afterwards and the sequence of callbacks
invoked. -/
def publish (beh : Nat → List BusAction) (b : ProgressEventBus)
    (ty : ProgressEventType) : ProgressEventBus × List Nat :=
  let fuel₁ := b.global_listeners.length
  let (b₁, inv₁) := globalLoop beh fuel₁ b 0 []
  match dictGet b₁.listeners ty with
  | none => (b₁, inv₁)
  | some l =>
    let (b₂, inv₂) := typedLoop beh ty l.length b₁ 0 []
    (b₂, inv₁ ++ inv₂)

/-! ## Graceful shutdown handler (`app/progress/interrupt.py`) -/

/-- State of a `GracefulShutdownHandler` relevant to interrupt handling. -/
structure GracefulShutdownHandler where
  tracker : Option ProgressTracker
  save_state : Bool := true
  shutdown_requested : Bool := false
deriving DecidableEq, Repr

/-- The snapshot dict `_save_state` serializes to
`workspace/.interrupted_state.json`. -/
structure InterruptedState where
  interrupted_at : ℚ
  description : String
  current_step : Int
  total_steps : Option Int
  start_time : ℚ
  duration : ℚ
  metadata : List (String × String)
  last_message : String
deriving DecidableEq, Repr

/-- `GracefulShutdownHandler._save_state` at wall-clock time `now`: the
snapshot written, or `none` when no tracker is associated. -/
def save_state_snapshot (h : GracefulShutdownHandler) (now : ℚ) :
    Option InterruptedState :=
  match h.tracker with
  | none => none
  | some tr =>
    some { interrupted_at := now
           description := tr.description
           current_step := tr.current_step
           total_steps := tr.total_steps
           start_time := tr.start_time
           duration := tr.duration now
           metadata := tr.metadata
           last_message := tr.last_message }

/-- Result of one invocation of `_handle_interrupt`: the handler state when
`sys.exit` is reached, the exit status passed to `sys.exit`, and the snapshot
written to the interrupted-state file (if any). -/
structure InterruptOutcome where
  handler : GracefulShutdownHandler
  exitCode : Nat
  written : Option InterruptedState
deriving DecidableEq, Repr

/-- `GracefulShutdownHandler._handle_interrupt(signum, frame)` at wall-clock
time `now`, with `signalName` the resolved signal name. -/
def handle_interrupt (h : GracefulShutdownHandler) (signalName : String)
    (now : ℚ) : InterruptOutcome :=
  if h.shutdown_requested then
    -- second interrupt: forced exit, no state saving
    { handler := h, exitCode := 1, written := none }
  else
    let h := { h with shutdown_requested := true }
    let h :=
      match h.tracker with
      | some tr =>
        if tr.is_running then
          let failed :=
            (tr.fail now ("Interrupted by " ++ signalName)
              "Task interrupted by user").1
          { h with tracker := some failed }
        else h
      | none => h
    let written :=
      if h.save_state && h.tracker.isSome then save_state_snapshot h now
      else none
    { handler := h, exitCode := 0, written := written }

/-! ## Checkpoint manager (`app/recovery/checkpoint.py`)

Python aliasing is modelled with a heap of numbered cells: each cell holds
one complete (deeply read) object value of type `V`, so `copy.deepcopy`
is allocation of the value at a fresh address and mutation through one
address never affects another address. -/

/-- A heap of mutable Python objects: an address map plus the next fresh
address. -/
structure Heap (V : Type) where
  cells : List (Nat × V)
  fresh : Nat
deriving DecidableEq, Repr

/-- Read the object at an address. -/
def heapGet {V : Type} (h : Heap V) (a : Nat) : Option V :=
  dictGet h.cells a

/-- Every allocated address is below `fresh`. -/
def heapWF {V : Type} (h : Heap V) : Prop :=
  ∀ p ∈ h.cells, p.1 < h.fresh

/-- Allocate a new object holding value `v`, returning its address. -/
def heapAlloc {V : Type} (h : Heap V) (v : V) : Heap V × Nat :=
  ({ cells := h.cells ++ [(h.fresh, v)], fresh := h.fresh + 1 }, h.fresh)

/-- In-place mutation of the object at address `a` by the caller. -/
def heapMutate {V : Type} (h : Heap V) (a : Nat) (f : V → V) : Heap V :=
  match heapGet h a with
  | none => h
  | some v => { h with cells := dictSet h.cells a (f v) }

/-- A `Checkpoint` record: id, timestamp (abstract tick), the address of its
own deep-copied state object, the address of its deep-copied memory snapshot
(if any), and description. -/
structure Checkpoint where
  checkpoint_id : String
  timestamp : Nat
  stateAddr : Nat
  memoryAddr : Option Nat
  description : String
deriving DecidableEq, Repr

/-- `CheckpointManager` state: the in-memory checkpoint list, the cap, and a
counter modelling the timestamp-plus-uuid id generator (ids unique per
manager). -/
structure CheckpointManager where
  checkpoints : List Checkpoint := []
  max_checkpoints : Nat := 10
  nextIdNum : Nat := 0
deriving DecidableEq, Repr

/-- `_generate_checkpoint_id`, abstracted to a unique counter-based id. -/
def genCheckpointId (n : Nat) : String :=
  "checkpoint_" ++ toString n

/-- Stable insertion by non-decreasing timestamp (the sort key of
`_cleanup_old_checkpoints`). -/
def insertByTs (c : Checkpoint) : List Checkpoint → List Checkpoint
  | [] => [c]
  | d :: rest =>
    if d.timestamp ≤ c.timestamp then d :: insertByTs c rest else c :: d :: rest

/-- `sorted(self.checkpoints, key=lambda x: x.timestamp)` (stable). -/
def sortByTs (cps : List Checkpoint) : List Checkpoint :=
  cps.foldl (fun acc c => insertByTs c acc) []

/-- `_cleanup_old_checkpoints`: when over the cap, delete the oldest entries.
The Python slice `sorted_checkpoints[: -max_checkpoints]` is empty when
`max_checkpoints == 0`, so nothing is removed in that case. -/
def cleanupOld (cps : List Checkpoint) (maxC : Nat) : List Checkpoint :=
  if cps.length ≤ maxC then cps
  else
    let toRemove :=
      if maxC = 0 then [] else (sortByTs cps).take (cps.length - maxC)
    cps.filter (fun c => !(toRemove.any (fun r => r.checkpoint_id == c.checkpoint_id)))

/-- `CheckpointManager.save_checkpoint(state, memory, description)`:
deep-copies the state object (and the memory object, when given) into fresh
heap cells and records a checkpoint pointing at the copies.  `none` is
returned only for a dangling address, which cannot arise for a live Python
object. -/
def save_checkpoint {V : Type} (mgr : CheckpointManager) (h : Heap V)
    (stateAddr : Nat) (memAddr : Option Nat) (ts : Nat)
    (descr : Option String) :
    Option (CheckpointManager × Heap V × String) :=
  match heapGet h stateAddr with
  | none => none
  | some v =>
    let alloc₁ := heapAlloc h v
    let h₁ := alloc₁.1
    let stateCopy := alloc₁.2
    let memStep : Heap V × Option Nat :=
      match memAddr with
      | none => (h₁, none)
      | some ma =>
        match heapGet h₁ ma with
        | none => (h₁, none)
        | some mv =>
          let alloc₂ := heapAlloc h₁ mv
          (alloc₂.1, some alloc₂.2)
    let cid := genCheckpointId mgr.nextIdNum
    let cp : Checkpoint :=
      { checkpoint_id := cid, timestamp := ts, stateAddr := stateCopy,
        memoryAddr := memStep.2,
        description := descr.getD "Auto-saved checkpoint" }
    some ({ mgr with
            checkpoints := cleanupOld (mgr.checkpoints ++ [cp]) mgr.max_checkpoints
            nextIdNum := mgr.nextIdNum + 1 },
          memStep.1, cid)

/-- `CheckpointManager.restore_checkpoint(checkpoint_id)`: find the first
checkpoint with the id and return references (addresses) to its stored state
and memory; `none` models the `ValueError` raised when the id is unknown. -/
def restore_checkpoint (mgr : CheckpointManager) (cid : String) :
    Option (Nat × Option Nat) :=
  (mgr.checkpoints.find? (fun cp => cp.checkpoint_id == cid)).map
    (fun cp => (cp.stateAddr, cp.memoryAddr))

/-! ## General lemmas about the dict model -/

theorem dictGet_mem {α β : Type} [DecidableEq α] {l : List (α × β)} {k : α}
    {v : β} (h : dictGet l k = some v) : (k, v) ∈ l := by
  induction l with
  | nil => simp [dictGet] at h
  | cons p rest ih =>
    obtain ⟨a, b⟩ := p
    by_cases hk : a = k
    · subst hk
      simp [dictGet] at h
      subst h
      exact List.mem_cons_self _ _
    · simp [dictGet, hk] at h
      exact List.mem_cons_of_mem _ (ih h)

theorem dictGet_dictSet_self {α β : Type} [DecidableEq α] (l : List (α × β))
    (k : α) (v : β) : dictGet (dictSet l k v) k = some v := by
  induction l with
  | nil => simp [dictGet, dictSet]
  | cons p rest ih =>
    obtain ⟨a, b⟩ := p
    by_cases hk : a = k
    · subst hk; simp [dictGet, dictSet]
    · simp [dictGet, dictSet, hk, ih]

theorem dictGet_dictSet_ne {α β : Type} [DecidableEq α] (l : List (α × β))
    {k k' : α} (v : β) (h : k' ≠ k) :
    dictGet (dictSet l k v) k' = dictGet l k' := by
  induction l with
  | nil => simp [dictGet, dictSet, Ne.symm h]
  | cons p rest ih =>
    obtain ⟨a, b⟩ := p
    by_cases hk : a = k
    · subst hk
      simp [dictGet, dictSet, Ne.symm h]
    · by_cases hk' : a = k'
      · subst hk'; simp [dictGet, dictSet, hk]
      · simp [dictGet, dictSet, hk, hk', ih]

theorem dictGet_append_left {α β : Type} [DecidableEq α] {l : List (α × β)}
    (l₂ : List (α × β)) {k : α} {v : β} (h : dictGet l k = some v) :
    dictGet (l ++ l₂) k = some v := by
  induction l with
  | nil => simp [dictGet] at h
  | cons p rest ih =>
    obtain ⟨a, b⟩ := p
    by_cases hk : a = k
    · subst hk; simp_all [dictGet]
    · simp_all [dictGet, hk]

theorem dictGet_append_fresh {α β : Type} [DecidableEq α] {l : List (α × β)}
    {k : α} (h : ∀ p ∈ l, p.1 ≠ k) (v : β) :
    dictGet (l ++ [(k, v)]) k = some v := by
  induction l with
  | nil => simp [dictGet]
  | cons p rest ih =>
    obtain ⟨a, b⟩ := p
    have ha : a ≠ k := h (a, b) (List.mem_cons_self _ _)
    simp only [List.cons_append, dictGet, ha, if_false]
    exact ih (fun q hq => h q (List.mem_cons_of_mem _ hq))

/-! ## Claim theorems -/

/-- Claim C3: for an exception carrying an explicit retryable flag,
`is_retryable` returns that flag verbatim; for any other exception it returns
`true` exactly when `classify_error` assigns one of NETWORK, TIMEOUT,
RATE_LIMIT, API, BROWSER, and `false` for every other category (the fatal
set and the UNKNOWN default alike). -/
theorem is_retryable_spec :
    (∀ (e : PyError) (b : Bool), e.flag = some b → is_retryable e = b) ∧
    (∀ e : PyError, e.flag = none →
      (is_retryable e = true ↔ classify_error e ∈ retryableCategories)) := by
  constructor
  · intro e b hb
    simp [is_retryable, hb]
  · intro e he
    simp only [is_retryable, he]
    cases hc : classify_error e <;>
      simp [retryableCategories, fatalCategories]

/-- Witness for C3: a `FatalError`-style flag is returned verbatim, and a
plain network-classified exception is retryable. -/
theorem is_retryable_spec_witness :
    is_retryable ⟨"boom", "ValueError", some false, none⟩ = false ∧
    is_retryable ⟨"Connection refused", "Exception", none, none⟩ = true := by
  constructor
  · exact is_retryable_spec.1 ⟨"boom", "ValueError", some false, none⟩ false rfl
  · exact (is_retryable_spec.2 ⟨"Connection refused", "Exception", none, none⟩
      rfl).mpr (by decide)

/-- Claim C6 counterexample: a message containing both "timeout" and "api"
need not classify as TIMEOUT — the NETWORK group is checked first, so
"Connection timeout from api" classifies as NETWORK. -/
theorem classify_timeout_api_counterexample :
    strIn "timeout" (lowerStr "Connection timeout from api") = true ∧
    strIn "api" (lowerStr "Connection timeout from api") = true ∧
    classify_error ⟨"Connection timeout from api", "Exception", none, none⟩ =
      ErrorCategory.NETWORK ∧
    ErrorCategory.NETWORK ≠ ErrorCategory.TIMEOUT := by
  refine ⟨by decide, by decide, by decide, by decide⟩

/-- Claim C6 (amended): a message containing "timeout" classifies as TIMEOUT
provided neither the message nor the type name matches a NETWORK-group
keyword (the only group checked earlier); the concrete round-trips hold:
"Connection refused" is NETWORK, "401 Unauthorized" is AUTHENTICATION, and an
empty message with an unremarkable type is UNKNOWN. -/
theorem classify_order_spec :
    (∀ e : PyError,
      strIn "timeout" (lowerStr e.msg) = true →
      matchesAny (lowerStr e.msg) (lowerStr e.typeName) networkKeywords = false →
      classify_error e = ErrorCategory.TIMEOUT) ∧
    classify_error ⟨"Connection refused", "Exception", none, none⟩ =
      ErrorCategory.NETWORK ∧
    classify_error ⟨"401 Unauthorized", "Exception", none, none⟩ =
      ErrorCategory.AUTHENTICATION ∧
    classify_error ⟨"", "Exception", none, none⟩ = ErrorCategory.UNKNOWN := by
  refine ⟨?_, by decide, by decide, by decide⟩
  intro e ht hn
  have htime : matchesAny (lowerStr e.msg) (lowerStr e.typeName)
      timeoutKeywords = true := by
    simp [matchesAny, timeoutKeywords, ht]
  simp [classify_error, classifyLower, hn, htime]

/-- Witness for C6 (amended): "API request timeout" contains both "timeout"
and "api", matches no NETWORK keyword, and classifies as TIMEOUT. -/
theorem classify_order_spec_witness :
    classify_error ⟨"API request timeout", "Exception", none, none⟩ =
      ErrorCategory.TIMEOUT :=
  classify_order_spec.1 ⟨"API request timeout", "Exception", none, none⟩
    (by decide) (by decide)

/-- Claim C9: the filesystem retry preset never retries a plain exception of
the very category its restriction set names: `is_retryable` puts FILESYSTEM
in the fatal set and is consulted before the category restriction, so
`should_retry` is false at every attempt. -/
theorem filesystem_preset_never_retries :
    ∀ (e : PyError) (attempt : Nat), e.flag = none →
      classify_error e = ErrorCategory.FILESYSTEM →
      should_retry FILESYSTEM_RETRY_STRATEGY e attempt = false := by
  intro e attempt hf hc
  have hr : is_retryable e = false := by
    simp [is_retryable, hf, hc, retryableCategories, fatalCategories]
  simp [should_retry, hr]

/-- Witness for C9: a "Permission denied" error classifies as FILESYSTEM and
the filesystem preset refuses to retry it on the first attempt. -/
theorem filesystem_preset_never_retries_witness :
    should_retry FILESYSTEM_RETRY_STRATEGY
      ⟨"Permission denied", "PermissionError", none, none⟩ 0 = false :=
  filesystem_preset_never_retries
    ⟨"Permission denied", "PermissionError", none, none⟩ 0 rfl (by decide)

/-- A strategy meeting the constraints C2 names (`max_retries ≥ 0`,
`max_delay ≥ initial_delay`, `exponential_base > 1`) but with a negative
`initial_delay`. -/
def negDelayStrategy : RetryStrategy :=
  { max_retries := 3, initial_delay := -1, max_delay := 0,
    exponential_base := 2, jitter := false, retry_on_categories := none }

/-- Claim C2 counterexample: under only the constraints the claim lists,
`get_delay` need not be monotone — with `initial_delay = -1`, `max_delay = 0`
and base 2 (all three listed constraints hold) the delay at attempt 1 is
strictly below the delay at attempt 0. -/
theorem get_delay_monotone_counterexample :
    negDelayStrategy.initial_delay ≤ negDelayStrategy.max_delay ∧
    1 < negDelayStrategy.exponential_base ∧
    negDelayStrategy.jitter = false ∧
    ¬ (get_delay negDelayStrategy 0 none 1 ≤ get_delay negDelayStrategy 1 none 1) := by
  refine ⟨by norm_num [negDelayStrategy], by norm_num [negDelayStrategy], rfl, ?_⟩
  norm_num [get_delay, negDelayStrategy]

/-- Claim C2 (amended): additionally assuming `initial_delay ≥ 0` (delays are
durations in seconds), `get_delay` without a suggested delay is monotone
non-decreasing in the attempt when jitter is disabled, and bounded by
`max_delay * 1.5` when jitter is enabled and the jitter factor lies in the
default bounds `[0.5, 1.5)`. -/
theorem get_delay_monotone_and_bounded (s : RetryStrategy)
    (hi : 0 ≤ s.initial_delay) (him : s.initial_delay ≤ s.max_delay)
    (hb : 1 < s.exponential_base) :
    (s.jitter = false → ∀ (a b : Nat) (jf jf' : ℚ), a ≤ b →
      get_delay s a none jf ≤ get_delay s b none jf') ∧
    (s.jitter = true → ∀ (a : Nat) (jf : ℚ), 1/2 ≤ jf → jf < 3/2 →
      get_delay s a none jf ≤ s.max_delay * (3/2)) := by
  have hM : 0 ≤ s.max_delay := le_trans hi him
  have hbase : (0 : ℚ) ≤ s.exponential_base := by linarith
  constructor
  · intro hj a b jf jf' hab
    simp only [get_delay, hj, if_false, Bool.false_eq_true]
    exact min_le_min
      (mul_le_mul_of_nonneg_left (pow_le_pow_right₀ (le_of_lt hb) hab) hi) le_rfl
  · intro hj a jf hjf₁ hjf₂
    simp only [get_delay, hj, if_true]
    have h₀ : 0 ≤ min (s.initial_delay * s.exponential_base ^ a) s.max_delay :=
      le_min (mul_nonneg hi (pow_nonneg hbase a)) hM
    have h₁ : min (s.initial_delay * s.exponential_base ^ a) s.max_delay ≤
        s.max_delay := min_le_right _ _
    exact mul_le_mul h₁ (le_of_lt hjf₂) (by linarith) hM

/-- Witness for C2 (amended): the filesystem preset satisfies all the
hypotheses and its computed delay at attempt 1 is at most the delay at
attempt 2. -/
theorem get_delay_monotone_and_bounded_witness :
    get_delay FILESYSTEM_RETRY_STRATEGY 1 none 1 ≤
      get_delay FILESYSTEM_RETRY_STRATEGY 2 none 1 :=
  (get_delay_monotone_and_bounded FILESYSTEM_RETRY_STRATEGY
    (by norm_num [FILESYSTEM_RETRY_STRATEGY])
    (by norm_num [FILESYSTEM_RETRY_STRATEGY])
    (by norm_num [FILESYSTEM_RETRY_STRATEGY])).1 rfl 1 2 1 1 (by norm_num)

/-- `should_retry` is true below the retry budget for a retryable error whose
category passes the (possibly absent) restriction. -/
theorem should_retry_of (s : RetryStrategy) (e : PyError) (attempt : Nat)
    (h₁ : attempt < s.max_retries) (h₂ : is_retryable e = true)
    (h₃ : categoryAdmits s e = true) : should_retry s e attempt = true := by
  simp [should_retry, Nat.not_le.mpr h₁, h₂, h₃]

/-- Claim C1: an operation that raises a retryable, category-admitted error
on attempts 0 and 1 and returns `v` on attempt 2, run by
`execute_with_retry` on a fresh handler under a strategy with
`max_retries ≥ 2`, returns `v` and leaves the statistics at
`total_attempts = 3`, `successful_retries = 1`, `failed_retries = 0` —
so exactly three attempts were made. -/
theorem execute_with_retry_fail_twice {V : Type} (s : RetryStrategy)
    (op : Nat → Outcome V) (e₀ e₁ : PyError) (v : V)
    (hmax : 2 ≤ s.max_retries)
    (h₀ : op 0 = Outcome.err e₀) (h₁ : op 1 = Outcome.err e₁)
    (h₂ : op 2 = Outcome.ok v)
    (hr₀ : is_retryable e₀ = true) (hr₁ : is_retryable e₁ = true)
    (hc₀ : categoryAdmits s e₀ = true) (hc₁ : categoryAdmits s e₁ = true) :
    execute_with_retry s op ⟨0, 0, 0⟩ = (Except.ok v, ⟨3, 1, 0⟩) := by
  obtain ⟨k, hk⟩ : ∃ k, s.max_retries = k + 2 := ⟨s.max_retries - 2, by omega⟩
  have hs₀ : should_retry s e₀ 0 = true :=
    should_retry_of s e₀ 0 (by omega) hr₀ hc₀
  have hs₁ : should_retry s e₁ 1 = true :=
    should_retry_of s e₁ 1 (by omega) hr₁ hc₁
  unfold execute_with_retry
  rw [show s.max_retries + 1 = ((k + 1) + 1) + 1 by omega]
  simp [retryLoop, h₀, h₁, h₂, hs₀, hs₁]

/-- A transient connection error used by the C1 witness. -/
def connResetErr : PyError := ⟨"Connection reset by peer", "ConnectionError", none, none⟩

/-- The C1 witness operation: raises a connection error on the first two
attempts, returns 42 on the third. -/
def opFailTwice : Nat → Outcome Nat :=
  fun n => if n < 2 then Outcome.err connResetErr else Outcome.ok 42

/-- Witness for C1: the quick-retry preset (`max_retries = 2`, no category
restriction) on `opFailTwice` returns 42 with statistics (3, 1, 0). -/
theorem execute_with_retry_fail_twice_witness :
    execute_with_retry QUICK_RETRY_STRATEGY opFailTwice ⟨0, 0, 0⟩ =
      (Except.ok 42, ⟨3, 1, 0⟩) :=
  execute_with_retry_fail_twice QUICK_RETRY_STRATEGY opFailTwice
    connResetErr connResetErr 42 (by decide) rfl rfl rfl
    (by decide) (by decide) (by decide) (by decide)

/-- A tracker that has already completed (total 10, step forced to 10). -/
def completedSample : ProgressTracker :=
  { total_steps := some 10, current_step := 10, description := "demo",
    show_progress := true, start_time := 0, end_time := some 5,
    step_start_times := [], step_durations := [], metadata := [],
    is_completed := true, is_failed := false, last_message := "Completed" }

/-- Claim C4 counterexample: `set_total_steps` carries no terminal-state
guard, so calling it on a completed tracker changes `total_steps` — a field
other than `end_time` and the terminal flags — refuting the freeze as stated
for the full list of operations. -/
theorem tracker_freeze_counterexample :
    completedSample.is_completed = true ∧
    (completedSample.set_total_steps 6 99).1.total_steps = some 99 ∧
    (completedSample.set_total_steps 6 99).1.total_steps ≠
      completedSample.total_steps := by
  refine ⟨rfl, by decide, by decide⟩

/-- Claim C4 (amended): once a tracker is terminal, `update`, `start_step`,
`complete_step`, `complete` and `fail` leave the whole state unchanged and
emit nothing; `set_total_steps` still overwrites `total_steps` but changes
nothing else (its internal `update` call is a no-op).  Moreover `complete` on
a running tracker with `total_steps = 10` forces `current_step = 10`, and
subsequent `update` calls leave the completed tracker unchanged. -/
theorem tracker_terminal_freeze :
    (∀ (t : ProgressTracker) (now now₂ : ℚ) (step : Option Int) (msg : String)
        (inc : Int) (md : Option (List (String × String))) (name : String)
        (res : Option String) (cmsg fmsg ferr : String) (n : Int),
      t.is_completed = true ∨ t.is_failed = true →
      t.update now step msg inc md = (t, []) ∧
      t.start_step name = (t, []) ∧
      t.complete_step name res = (t, []) ∧
      t.complete now cmsg = (t, []) ∧
      t.fail now ferr fmsg = (t, []) ∧
      t.set_total_steps now₂ n = ({ t with total_steps := some n }, [])) ∧
    (∀ (t : ProgressTracker) (now now₂ : ℚ) (cmsg msg : String)
        (step : Option Int) (inc : Int) (md : Option (List (String × String))),
      t.total_steps = some 10 → t.is_completed = false → t.is_failed = false →
      (t.complete now cmsg).1.current_step = 10 ∧
      (t.complete now cmsg).1.update now₂ step msg inc md =
        ((t.complete now cmsg).1, [])) := by
  constructor
  · intro t now now₂ step msg inc md name res cmsg fmsg ferr n hterm
    have hg : (t.is_completed || t.is_failed) = true := by
      rcases hterm with h | h <;> simp [h]
    refine ⟨?_, ?_, ?_, ?_, ?_, ?_⟩
    · simp [ProgressTracker.update, hg]
    · simp [ProgressTracker.start_step, hg]
    · simp [ProgressTracker.complete_step, hg]
    · simp [ProgressTracker.complete, hg]
    · simp [ProgressTracker.fail, hg]
    · simp [ProgressTracker.set_total_steps, ProgressTracker.update, hg]
  · intro t now now₂ cmsg msg step inc md htot hc hf
    have hdone : (t.complete now cmsg).1.is_completed = true := by
      simp [ProgressTracker.complete, hc, hf, htot]
    constructor
    · simp [ProgressTracker.complete, hc, hf, htot]
    · simp [ProgressTracker.update, hdone]

/-- Witness for C4 (amended): applied to the concrete completed tracker. -/
theorem tracker_terminal_freeze_witness :
    completedSample.update 7 none "x" 1 none = (completedSample, []) :=
  (tracker_terminal_freeze.1 completedSample 7 7 none "x" 1 none "s" none
    "c" "f" "e" 5 (Or.inl rfl)).1

/-- `fail` on a running tracker flips the failed flag. -/
theorem fail_sets_failed (t : ProgressTracker) (now : ℚ) (e m : String)
    (h : t.is_running = true) : (t.fail now e m).1.is_failed = true := by
  have hg : (t.is_completed || t.is_failed) = false := by
    simpa [ProgressTracker.is_running] using h
  simp [ProgressTracker.fail, hg]

/-- Claim C7: the first interrupt sets the shutdown-requested flag, exits
with status 0, writes the snapshot exactly when state-saving is enabled and
a tracker is present, and fails the tracker if it was running; any interrupt
with the flag already set exits with status 1, changes nothing and writes no
snapshot. -/
theorem shutdown_interrupt_spec :
    ∀ (h : GracefulShutdownHandler) (sig : String) (now : ℚ),
      (h.shutdown_requested = false →
        (handle_interrupt h sig now).handler.shutdown_requested = true ∧
        (handle_interrupt h sig now).exitCode = 0 ∧
        ((handle_interrupt h sig now).written.isSome = true ↔
          (h.save_state = true ∧ h.tracker.isSome = true)) ∧
        (∀ tr, h.tracker = some tr → tr.is_running = true →
          ∃ tr', (handle_interrupt h sig now).handler.tracker = some tr' ∧
            tr'.is_failed = true)) ∧
      (h.shutdown_requested = true →
        handle_interrupt h sig now = ⟨h, 1, none⟩) := by
  intro h sig now
  constructor
  · intro hreq
    rcases htr : h.tracker with _ | tr
    · refine ⟨?_, ?_, ?_, ?_⟩
      · simp [handle_interrupt, hreq, htr]
      · simp [handle_interrupt, hreq, htr]
      · simp [handle_interrupt, hreq, htr]
      · intro tr₀ htr₀
        cases htr₀
    · by_cases hrun : tr.is_running = true
      · refine ⟨?_, ?_, ?_, ?_⟩
        · simp [handle_interrupt, hreq, htr, hrun]
        · simp [handle_interrupt, hreq, htr, hrun]
        · cases hsv : h.save_state <;>
            simp [handle_interrupt, hreq, htr, hrun, hsv, save_state_snapshot]
        · intro tr₀ htr₀ hrun₀
          cases htr₀
          exact ⟨_, by simp [handle_interrupt, hreq, htr, hrun],
            fail_sets_failed tr now ("Interrupted by " ++ sig)
              "Task interrupted by user" hrun⟩
      · refine ⟨?_, ?_, ?_, ?_⟩
        · simp [handle_interrupt, hreq, htr, hrun]
        · simp [handle_interrupt, hreq, htr, hrun]
        · cases hsv : h.save_state <;>
            simp [handle_interrupt, hreq, htr, hrun, hsv, save_state_snapshot]
        · intro tr₀ htr₀ hrun₀
          cases htr₀
          exact absurd hrun₀ hrun
  · intro hreq
    simp [handle_interrupt, hreq]

/-- A running tracker mid-way through its work, for the C7 witness. -/
def runningSample : ProgressTracker :=
  { total_steps := some 10, current_step := 3, description := "work",
    show_progress := true, start_time := 0, end_time := none,
    step_start_times := [], step_durations := [], metadata := [],
    is_completed := false, is_failed := false, last_message := "" }

/-- A shutdown handler with state saving enabled and a running tracker. -/
def handlerSample : GracefulShutdownHandler :=
  { tracker := some runningSample, save_state := true,
    shutdown_requested := false }

/-- Witness for C7: the first interrupt on the sample handler exits with 0
and writes a snapshot. -/
theorem shutdown_interrupt_spec_witness :
    (handle_interrupt handlerSample "SIGINT" 9).exitCode = 0 ∧
    (handle_interrupt handlerSample "SIGINT" 9).written.isSome = true := by
  obtain ⟨-, h₂, h₃, -⟩ := (shutdown_interrupt_spec handlerSample "SIGINT" 9).1 rfl
  exact ⟨h₂, h₃.mpr ⟨rfl, rfl⟩⟩

/-- `_cleanup_old_checkpoints` keeps a sole checkpoint: with the cap positive
the list is within it, and with the cap zero Python's `[:-0]` slice selects
nothing to remove. -/
theorem cleanupOld_singleton (cp : Checkpoint) (maxC : Nat) :
    cleanupOld [cp] maxC = [cp] := by
  rcases Nat.eq_zero_or_pos maxC with h | h
  · subst h
    simp [cleanupOld]
  · have : (1 : Nat) ≤ maxC := h
    simp [cleanupOld, this]

/-- The heap and checkpoint state produced by a single `save_checkpoint` of
the object at `a` holding `v`, on a manager with no prior checkpoints. -/
theorem save_checkpoint_eq {V : Type} (mgr : CheckpointManager) (h : Heap V)
    (a : Nat) (v : V) (ts : Nat) (descr : Option String)
    (hv : heapGet h a = some v) (hm : mgr.checkpoints = []) :
    save_checkpoint mgr h a none ts descr =
      some ({ checkpoints := [⟨genCheckpointId mgr.nextIdNum, ts, h.fresh,
                none, descr.getD "Auto-saved checkpoint"⟩],
              max_checkpoints := mgr.max_checkpoints,
              nextIdNum := mgr.nextIdNum + 1 },
            ⟨h.cells ++ [(h.fresh, v)], h.fresh + 1⟩,
            genCheckpointId mgr.nextIdNum) := by
  simp only [save_checkpoint, hv, heapAlloc, hm, List.nil_append,
    cleanupOld_singleton]

/-- Claim C8: `save_checkpoint` stores a deep copy, so after the caller
mutates the original state object, restoring the checkpoint by its returned
id still yields the state exactly as it was at save time. -/
theorem save_restore_deepcopy {V : Type} (mgr : CheckpointManager)
    (h : Heap V) (a : Nat) (v : V) (ts : Nat) (descr : Option String)
    (f : V → V) (hwf : heapWF h) (hv : heapGet h a = some v)
    (hm : mgr.checkpoints = []) :
    ∃ (mgr' : CheckpointManager) (h' : Heap V) (cid : String) (addr : Nat),
      save_checkpoint mgr h a none ts descr = some (mgr', h', cid) ∧
      restore_checkpoint mgr' cid = some (addr, none) ∧
      heapGet (heapMutate h' a f) addr = some v := by
  have ha : a < h.fresh := hwf (a, v) (dictGet_mem hv)
  have hane : h.fresh ≠ a := fun heq => absurd ha (by rw [heq]; exact lt_irrefl a)
  refine ⟨_, _, _, h.fresh, save_checkpoint_eq mgr h a v ts descr hv hm, ?_, ?_⟩
  · simp [restore_checkpoint, List.find?]
  · have hget : dictGet (h.cells ++ [(h.fresh, v)]) a = some v :=
      dictGet_append_left _ hv
    have hfreshget : dictGet (h.cells ++ [(h.fresh, v)]) h.fresh = some v :=
      dictGet_append_fresh (fun p hp => Nat.ne_of_lt (hwf p hp)) v
    simp only [heapMutate, heapGet, hget]
    rw [dictGet_dictSet_ne _ _ hane]
    exact hfreshget

/-- Witness for C8: saving the integer object 5, bumping the original in
place, and restoring still reads 5. -/
theorem save_restore_deepcopy_witness :
    ∃ (mgr' : CheckpointManager) (h' : Heap Int) (cid : String) (addr : Nat),
      save_checkpoint ({} : CheckpointManager)
        (⟨[(0, (5 : Int))], 1⟩ : Heap Int) 0 none 0 none =
        some (mgr', h', cid) ∧
      restore_checkpoint mgr' cid = some (addr, none) ∧
      heapGet (heapMutate h' 0 (fun x => x + 1)) addr = some 5 :=
  save_restore_deepcopy ({} : CheckpointManager)
    (⟨[(0, (5 : Int))], 1⟩ : Heap Int) 0 5 0 none (fun x => x + 1)
    (by unfold heapWF; decide) rfl rfl

/-- Claim C10: `restore_checkpoint` returns the stored object itself, not a
copy — mutating the returned mapping and restoring the same id again yields
the mutated mapping, no longer the state saved at checkpoint time. -/
theorem restore_returns_live_reference {V : Type} (mgr : CheckpointManager)
    (h : Heap V) (a : Nat) (v : V) (ts : Nat) (descr : Option String)
    (f : V → V) (hwf : heapWF h) (hv : heapGet h a = some v)
    (hm : mgr.checkpoints = []) (hne : f v ≠ v) :
    ∃ (mgr' : CheckpointManager) (h' : Heap V) (cid : String) (addr : Nat),
      save_checkpoint mgr h a none ts descr = some (mgr', h', cid) ∧
      restore_checkpoint mgr' cid = some (addr, none) ∧
      heapGet (heapMutate h' addr f) addr = some (f v) ∧
      heapGet (heapMutate h' addr f) addr ≠ some v := by
  refine ⟨_, _, _, h.fresh, save_checkpoint_eq mgr h a v ts descr hv hm, ?_, ?_, ?_⟩
  · simp [restore_checkpoint, List.find?]
  · have hfreshget : dictGet (h.cells ++ [(h.fresh, v)]) h.fresh = some v :=
      dictGet_append_fresh (fun p hp => Nat.ne_of_lt (hwf p hp)) v
    simp only [heapMutate, heapGet, hfreshget]
    exact dictGet_dictSet_self _ _ _
  · have hfreshget : dictGet (h.cells ++ [(h.fresh, v)]) h.fresh = some v :=
      dictGet_append_fresh (fun p hp => Nat.ne_of_lt (hwf p hp)) v
    simp only [heapMutate, heapGet, hfreshget]
    rw [dictGet_dictSet_self]
    simp [hne]

/-- Witness for C10: saving 5, mutating the restored reference to 6, and
restoring again reads 6, not 5. -/
theorem restore_returns_live_reference_witness :
    ∃ (mgr' : CheckpointManager) (h' : Heap Int) (cid : String) (addr : Nat),
      save_checkpoint ({} : CheckpointManager)
        (⟨[(0, (5 : Int))], 1⟩ : Heap Int) 0 none 0 none =
        some (mgr', h', cid) ∧
      restore_checkpoint mgr' cid = some (addr, none) ∧
      heapGet (heapMutate h' addr (fun x => x + 1)) addr = some 6 ∧
      heapGet (heapMutate h' addr (fun x => x + 1)) addr ≠ some 5 :=
  restore_returns_live_reference ({} : CheckpointManager)
    (⟨[(0, (5 : Int))], 1⟩ : Heap Int) 0 5 0 none (fun x => x + 1)
    (by unfold heapWF; decide) rfl rfl (by decide)

/-- A bus with two global listeners, ids 0 and 1, for C5. -/
def twoListenerBus : ProgressEventBus :=
  { listeners := [], global_listeners := [0, 1] }

/-- Callback behaviour for C5: listener 0 unsubscribes itself when invoked;
listener 1 does nothing. -/
def selfUnsubBeh : Nat → List BusAction :=
  fun n => if n = 0 then [BusAction.unsubscribeAll 0] else []

/-- Claim C5, evaluated at the failing input: with global listeners `[0, 1]`
registered at publish time, and listener 0 unsubscribing itself during the
dispatch, `publish` invokes only listener 0 — listener 1 is skipped because
the loop iterates the live list, whose element after the removal has moved
under the iterator's index.  The spec requires every listener registered at
publish time to be invoked exactly once (snapshot iteration). -/
theorem publish_skips_second_listener :
    twoListenerBus.global_listeners = [0, 1] ∧
    (publish selfUnsubBeh twoListenerBus ProgressEventType.STARTED).2 = [0] ∧
    1 ∉ (publish selfUnsubBeh twoListenerBus ProgressEventType.STARTED).2 := by
  refine ⟨rfl, by decide, by decide⟩

end OpenManus
